import Mathlib

/-!
Verification of the t-bank-sdk payment client against its specification.

The Rust sources are shallowly embedded: serde-serializable data types become
Lean structures and inductives, the JSON documents that serde produces or
consumes are modelled by the `Json` inductive below, and the response
classification performed by `Client::send` (src/client.rs) becomes a pure
function from an HTTP status code and a body to an `Except Error` result.
Machine integers (`u32`, `NonZeroU32`, `NonZeroU16`) are modelled as `Nat`
subtypes carrying the range of the Rust type.
-/

namespace TBank

/-- Abstract syntax of a JSON document, the shape that serde_json parses a
response body into and that serde serializers emit.  Numbers are integers,
which covers every numeric field of this SDK (amounts in kopecks, u32
fractions). -/
inductive Json where
| null : Json
| bool (b : Bool) : Json
| num (n : Int) : Json
| str (s : String) : Json
| arr (elems : List Json) : Json
| obj (fields : List (String × Json)) : Json

/-- Field lookup in a JSON object, mirroring how a serde map visitor matches
keys against the field names of the derived struct.  Returns `none` on
non-objects and on absent keys. -/
def jsonLookup (j : Json) (key : String) : Option Json :=
  match j with
  | .obj fields => (fields.find? (fun p => p.1 == key)).map (fun p => p.2)
  | _ => none

mutual

/-- Every object key occurring anywhere in a JSON document. -/
def jsonKeys : Json → List String
| .null => []
| .bool _ => []
| .num _ => []
| .str _ => []
| .arr es => jsonKeysList es
| .obj fields => jsonKeysFields fields

/-- Keys of every document in a list. -/
def jsonKeysList : List Json → List String
| [] => []
| j :: js => jsonKeys j ++ jsonKeysList js

/-- Keys contributed by the field list of one object, including nested ones. -/
def jsonKeysFields : List (String × Json) → List String
| [] => []
| (k, v) :: fs => k :: (jsonKeys v ++ jsonKeysFields fs)

end

/-- Deserialization failure as reported by serde_path_to_error in
`Client::send`: the structural path at which decoding failed plus the
underlying serde message. -/
structure DeserError where
  path : String
  message : String
deriving DecidableEq

/-- Embedding of `enum Error` from src/error.rs, the single error type of the
SDK.  Note that the enum has no Validation variant: the variants are exactly
Config, Timeout, Network, Unauthorized, Forbidden, NotFound, TooManyRequests,
Server, Api and Deserialize.  Response bodies are carried as their parsed
JSON document. -/
inductive Error where
| config (msg : String) : Error
| timeout : Error
| network (msg : String) : Error
| unauthorized : Error
| forbidden : Error
| notFound : Error
| tooManyRequests : Error
| server (body : Json) : Error
| api (body : Json) : Error
| deserialize (message : String) (path : String) (raw : Json) : Error

/-- Embedding of `enum Environment` from src/client.rs. -/
inductive Environment where
| test : Environment
| production : Environment
deriving DecidableEq

/-- Production base endpoint, `PRODUCTION_BASE` in src/client.rs. -/
def PRODUCTION_BASE : String := "https://securepay.tinkoff/v2/Init"

/-- Test base endpoint, `TEST_BASE` in src/client.rs. -/
def TEST_BASE : String := "https://rest-api-test.tinkoff/v2/Init"

/-- Embedding of `impl From<&str> for Environment`: the source matches the
literal "PRODUCTION", then the literal "TEST", and sends every other string
to the Test arm as well. -/
def Environment.from_str (s : String) : Environment :=
  if s = "PRODUCTION" then .production
  else if s = "TEST" then .test
  else .test

/-- Embedding of the `#[default]` attribute on the Production variant: the
derived `Default` instance of `Environment` returns Production. -/
def Environment.default_env : Environment := .production

/-- Embedding of `Environment::base_url`. -/
def Environment.base_url : Environment → String
| .production => PRODUCTION_BASE
| .test => TEST_BASE

/-- Embedding of `struct TerminalKey(String)` from src/client.rs.  The tuple
constructor wraps the raw string; no validating constructor exists apart from
`from_env` below. -/
structure TerminalKey where
  val : String
deriving DecidableEq

/-- Embedding of `TerminalKey::from_env`.  The input is the state of the
TERMINAL_KEY environment variable (`none` when unset).  The Rust code runs
`std::env::var(..).ok().filter(|t| t.len() <= 20).ok_or_else(.. Config ..)`;
`String::len` in Rust is the UTF-8 byte length, so the filter compares
`utf8ByteSize`, and both the unset case and the too-long case collapse into
the same Config error. -/
def TerminalKey.from_env (var : Option String) : Except Error TerminalKey :=
  match var.filter (fun t => t.utf8ByteSize ≤ 20) with
  | some t => .ok ⟨t⟩
  | none => .error (.config "TERMINAL_KEY variable is missing")

/-- Embedding of `Amount(NonZeroU32)` from src/payment.rs: a sum in kopecks,
restricted by its machine type to the nonzero u32 range. -/
structure Amount where
  val : Nat
  isPos : 0 < val
  isLt : val < 4294967296
deriving DecidableEq

/-- Embedding of `Quantity(NonZeroU16)` from src/receipt.rs. -/
structure Quantity where
  val : Nat
  isPos : 0 < val
  isLt : val < 65536
deriving DecidableEq

/-- Embedding of `Tax` (src/receipt.rs), wire names are the lowercase
variant names. -/
inductive Tax where
| none | vat0 | vat5 | vat7 | vat10 | vat20 | vat22
| vat105 | vat107 | vat110 | vat120 | vat122
deriving DecidableEq

/-- Wire token of a Tax value under rename_all lowercase. -/
def Tax.wire : Tax → String
| .none => "none"
| .vat0 => "vat0"
| .vat5 => "vat5"
| .vat7 => "vat7"
| .vat10 => "vat10"
| .vat20 => "vat20"
| .vat22 => "vat22"
| .vat105 => "vat105"
| .vat107 => "vat107"
| .vat110 => "vat110"
| .vat120 => "vat120"
| .vat122 => "vat122"

/-- Embedding of `PaymentMethod` (src/receipt.rs), rename_all snake_case. -/
inductive PaymentMethod where
| fullPrepayment | prepayment | advance | fullPayment
| partialPayment | credit | creditPayment
deriving DecidableEq

/-- Wire token of a PaymentMethod value. -/
def PaymentMethod.wire : PaymentMethod → String
| .fullPrepayment => "full_prepayment"
| .prepayment => "prepayment"
| .advance => "advance"
| .fullPayment => "full_payment"
| .partialPayment => "partial_payment"
| .credit => "credit"
| .creditPayment => "credit_payment"

/-- Embedding of `PaymentObjectFF105` (src/receipt.rs), rename_all
snake_case. -/
inductive PaymentObjectFF105 where
| commodity | excise | job | service | gamblingBet | gamblingPrize
| lottery | lotteryPrize | intellectualActivity | payment
| agentCommission | composite | another
deriving DecidableEq

/-- Wire token of a PaymentObjectFF105 value. -/
def PaymentObjectFF105.wire : PaymentObjectFF105 → String
| .commodity => "commodity"
| .excise => "excise"
| .job => "job"
| .service => "service"
| .gamblingBet => "gambling_bet"
| .gamblingPrize => "gambling_prize"
| .lottery => "lottery"
| .lotteryPrize => "lottery_prize"
| .intellectualActivity => "intellectual_activity"
| .payment => "payment"
| .agentCommission => "agent_commission"
| .composite => "composite"
| .another => "another"

/-- Embedding of `PaymentObjectFF12` (src/receipt.rs), rename_all
snake_case. -/
inductive PaymentObjectFF12 where
| commodity | excise | job | service | gamblingBet | gamblingPrize
| lottery | lotteryPrize | intellectualActivity | payment
| agentCommission | contribution | propertyRights | unrealization
| taxReduction | tradeFee | resortTax | pledge | incomeDecrease
| iePensionInsuranceWithoutPayments | iePensionInsuranceWithPayments
| ieMedicalInsuranceWithoutPayments | ieMedicalInsuranceWithPayments
| socialInsurance | casinoChips | agentPayment
| excisableGoodsWithoutMarkingCode | excisableGoodsWithMarkingCode
| goodsWithoutMarkingCode | goodsWithMarkingCode | another
deriving DecidableEq

/-- Wire token of a PaymentObjectFF12 value. -/
def PaymentObjectFF12.wire : PaymentObjectFF12 → String
| .commodity => "commodity"
| .excise => "excise"
| .job => "job"
| .service => "service"
| .gamblingBet => "gambling_bet"
| .gamblingPrize => "gambling_prize"
| .lottery => "lottery"
| .lotteryPrize => "lottery_prize"
| .intellectualActivity => "intellectual_activity"
| .payment => "payment"
| .agentCommission => "agent_commission"
| .contribution => "contribution"
| .propertyRights => "property_rights"
| .unrealization => "unrealization"
| .taxReduction => "tax_reduction"
| .tradeFee => "trade_fee"
| .resortTax => "resort_tax"
| .pledge => "pledge"
| .incomeDecrease => "income_decrease"
| .iePensionInsuranceWithoutPayments => "ie_pension_insurance_without_payments"
| .iePensionInsuranceWithPayments => "ie_pension_insurance_with_payments"
| .ieMedicalInsuranceWithoutPayments => "ie_medical_insurance_without_payments"
| .ieMedicalInsuranceWithPayments => "ie_medical_insurance_with_payments"
| .socialInsurance => "social_insurance"
| .casinoChips => "casino_chips"
| .agentPayment => "agent_payment"
| .excisableGoodsWithoutMarkingCode => "excisable_goods_without_marking_code"
| .excisableGoodsWithMarkingCode => "excisable_goods_with_marking_code"
| .goodsWithoutMarkingCode => "goods_without_marking_code"
| .goodsWithMarkingCode => "goods_with_marking_code"
| .another => "another"

/-- Embedding of `AgentSign` (src/receipt.rs).  The source derives serde
with no rename attribute, so the wire tokens are the raw variant names,
including the CommisionAgent spelling. -/
inductive AgentSign where
| bankPayingAgent | bankPayingSubagent | payingAgent | payingSubagent
| attorney | commisionAgent | another
deriving DecidableEq

/-- Wire token of an AgentSign value (variant names verbatim). -/
def AgentSign.wire : AgentSign → String
| .bankPayingAgent => "BankPayingAgent"
| .bankPayingSubagent => "BankPayingSubagent"
| .payingAgent => "PayingAgent"
| .payingSubagent => "PayingSubagent"
| .attorney => "Attorney"
| .commisionAgent => "CommisionAgent"
| .another => "Another"

/-- Embedding of `AgentData` (src/receipt.rs), rename_all PascalCase.
Transparent string wrappers (OperationName, OperatorName, OperatorAddress,
OperatorInn, Phone) are inlined as String; the source field name perator_inn
is kept. -/
structure AgentData where
  agent_sign : AgentSign
  operation_name : String
  phones : List String
  receiver_phones : List String
  transfer_phones : List String
  operator_name : String
  operator_address : String
  perator_inn : String

/-- Embedding of `SupplierInfo` (src/receipt.rs), rename_all PascalCase. -/
structure SupplierInfo where
  phones : List String
  name : String
  inn : String

/-- Embedding of `MeasurementUnit` (src/receipt.rs) with the Cyrillic wire
tokens from the serde renames. -/
inductive MeasurementUnit where
| piece | gram | kilogram | ton | centimeter | decimeter | meter
| squareCentimeter | squareDecimeter | squareMeter | milliliter | liter
| cubicMeter | kilowattHour | gigacalorie | day | dayAlt | hour | minute
| second | kilobyte | megabyte | gigabyte | terabyte | other
deriving DecidableEq

/-- Wire token of a MeasurementUnit value. -/
def MeasurementUnit.wire : MeasurementUnit → String
| .piece => "шт"
| .gram => "г"
| .kilogram => "кг"
| .ton => "т"
| .centimeter => "см"
| .decimeter => "дм"
| .meter => "м"
| .squareCentimeter => "см2"
| .squareDecimeter => "дм2"
| .squareMeter => "м2"
| .milliliter => "мл"
| .liter => "л"
| .cubicMeter => "м3"
| .kilowattHour => "кВт*ч"
| .gigacalorie => "Гкал"
| .day => "сут"
| .dayAlt => "дн"
| .hour => "ч"
| .minute => "мин"
| .second => "с"
| .kilobyte => "Кбайт"
| .megabyte => "Мбайт"
| .gigabyte => "Гбайт"
| .terabyte => "Тбайт"
| .other => "-"

/-- Embedding of `MarkCodeType` (src/receipt.rs), rename_all UPPERCASE. -/
inductive MarkCodeType where
| unknown | ean8 | ean13 | itf14 | gs10 | gs1m | short | fur
| egais20 | egais30 | rawcode
deriving DecidableEq

/-- Wire token of a MarkCodeType value. -/
def MarkCodeType.wire : MarkCodeType → String
| .unknown => "UNKNOWN"
| .ean8 => "EAN8"
| .ean13 => "EAN13"
| .itf14 => "ITF14"
| .gs10 => "GS10"
| .gs1m => "GS1M"
| .short => "SHORT"
| .fur => "FUR"
| .egais20 => "EGAIS20"
| .egais30 => "EGAIS30"
| .rawcode => "RAWCODE"

/-- Embedding of `MarkCode` (src/receipt.rs).  No rename attribute on the
struct, so the wire keys are the snake_case field names. -/
structure MarkCode where
  mark_code_type : MarkCodeType
  value : String

/-- Embedding of `MarkQuantity` (src/receipt.rs), rename_all PascalCase.
Numerator and Denominator are plain u32 newtypes; the strictly-less
requirement stated in their documentation is not represented in the type and
is checked nowhere in the crate. -/
structure MarkQuantity where
  numerator : Nat
  denominator : Nat
deriving DecidableEq

/-- Embedding of the fieldless `OperatingCheckProps` (src/receipt.rs). -/
structure OperatingCheckProps where

/-- Embedding of the fieldless `SectoralCheckProps` (src/receipt.rs). -/
structure SectoralCheckProps where

/-- Embedding of the fieldless `AddUserProp` (src/receipt.rs). -/
structure AddUserProp where

/-- Embedding of the fieldless `AdditionalCheckProps` (src/receipt.rs). -/
structure AdditionalCheckProps where

/-- Embedding of `DocumentCode` (src/receipt.rs): the fourteen permitted
identity-document codes, wire tokens are the digit strings. -/
inductive DocumentCode where
| c21 | c22 | c26 | c27 | c28 | c31 | c32 | c33 | c34 | c35 | c36 | c37
| c38 | c40
deriving DecidableEq

/-- Wire token of a DocumentCode value. -/
def DocumentCode.wire : DocumentCode → String
| .c21 => "21"
| .c22 => "22"
| .c26 => "26"
| .c27 => "27"
| .c28 => "28"
| .c31 => "31"
| .c32 => "32"
| .c33 => "33"
| .c34 => "34"
| .c35 => "35"
| .c36 => "36"
| .c37 => "37"
| .c38 => "38"
| .c40 => "40"

/-- Embedding of `ClientInfo` (src/receipt.rs).  No rename attribute, so the
wire keys are the snake_case field names. -/
structure ClientInfo where
  birthdate : String
  citizenship : String
  document_code : DocumentCode
  document_data : String
  address : String

/-- Embedding of `FfdVersion` (src/receipt.rs), wire tokens "1.2" and
"1.05", default 1.05. -/
inductive FfdVersion where
| v12 | v105
deriving DecidableEq

/-- Wire token of an FfdVersion value. -/
def FfdVersion.wire : FfdVersion → String
| .v12 => "1.2"
| .v105 => "1.05"

/-- Embedding of `Taxation` (src/receipt.rs), rename_all lowercase, which
lowercases the variant names without inserting separators. -/
inductive Taxation where
| osn | usnIncome | usnIncomeOutcome | esn | patent
deriving DecidableEq

/-- Wire token of a Taxation value. -/
def Taxation.wire : Taxation → String
| .osn => "osn"
| .usnIncome => "usnincome"
| .usnIncomeOutcome => "usnincomeoutcome"
| .esn => "esn"
| .patent => "patent"

/-- Embedding of `ItemFFD105` (src/receipt.rs), rename_all PascalCase.
ItemName, ItemPrice, ItemQuantity, ItemAmount and Ean13 are transparent
wrappers and are inlined as their payload types. -/
structure ItemFFD105 where
  name : String
  price : Amount
  quantity : Quantity
  amount : Amount
  payment_method : PaymentMethod
  payment_object : PaymentObjectFF105
  tax : Tax
  ean_13 : String
  agent_data : AgentData
  supplier_info : SupplierInfo

/-- Embedding of `ItemFFD12` (src/receipt.rs), rename_all PascalCase.  Note
that the source gives the sectoral_item_props field type SectoralCheckProps,
a fieldless struct. -/
structure ItemFFD12 where
  name : String
  price : Amount
  quantity : Quantity
  amount : Amount
  payment_method : PaymentMethod
  payment_object : PaymentObjectFF12
  tax : Tax
  agent_data : AgentData
  supplier_info : SupplierInfo
  user_data : String
  excise : String
  country_code : String
  declaration_number : String
  measurement_unit : MeasurementUnit
  mark_processing_mode : String
  mark_code : List MarkCode
  mark_quantity : MarkQuantity
  sectoral_item_props : SectoralCheckProps

/-- Embedding of `Payments` (src/receipt.rs), rename_all PascalCase.  The
Electronic, Cash, AdvancePayment, Credit and Provision components are
transparent Amount wrappers. -/
structure Payments where
  electronic : Amount
  cash : Option Amount
  advance_payment : Option Amount
  credit : Option Amount
  provision : Option Amount

/-- Embedding of `enum Receipt` (src/receipt.rs): a tagged union over the
two fiscal-document-format variants.  Field names (including the source
spelling ffd_vesrion in the 1.2 variant) and their order follow the source;
ReceiptItemsFFD105/FFD12, ReceiptEmail, ReceiptPhone, Customer and
CustomerInn are transparent wrappers inlined as their payloads. -/
inductive Receipt where
| fFD105 (items : List ItemFFD105) (ffd_version : FfdVersion)
    (email : String) (phone : String) (taxation : Taxation)
    (payments : Payments) : Receipt
| fFD12 (items : List ItemFFD12) (ffd_vesrion : FfdVersion)
    (client_info : ClientInfo) (taxation : Taxation) (email : String)
    (phone : String) (customer : String) (customer_inn : String)
    (payments : Payments) (operating_check_props : OperatingCheckProps)
    (sectoral_check_props : SectoralCheckProps)
    (add_user_prop : AddUserProp)
    (additional_check_props : AdditionalCheckProps) : Receipt

/-- Serialization of an optional amount: serde writes None as null and Some
as the inner number. -/
def encodeOptAmount : Option Amount → Json
| Option.none => .null
| some a => .num a.val

/-- Serialization of AgentData under its PascalCase renames. -/
def encodeAgentData (a : AgentData) : Json :=
  .obj [("AgentSign", .str a.agent_sign.wire),
        ("OperationName", .str a.operation_name),
        ("Phones", .arr (a.phones.map Json.str)),
        ("ReceiverPhones", .arr (a.receiver_phones.map Json.str)),
        ("TransferPhones", .arr (a.transfer_phones.map Json.str)),
        ("OperatorName", .str a.operator_name),
        ("OperatorAddress", .str a.operator_address),
        ("PeratorInn", .str a.perator_inn)]

/-- Serialization of SupplierInfo under its PascalCase renames. -/
def encodeSupplierInfo (s : SupplierInfo) : Json :=
  .obj [("Phones", .arr (s.phones.map Json.str)),
        ("Name", .str s.name),
        ("Inn", .str s.inn)]

/-- Serialization of an ItemFFD105 under its PascalCase renames. -/
def encodeItemFFD105 (i : ItemFFD105) : Json :=
  .obj [("Name", .str i.name),
        ("Price", .num i.price.val),
        ("Quantity", .num i.quantity.val),
        ("Amount", .num i.amount.val),
        ("PaymentMethod", .str i.payment_method.wire),
        ("PaymentObject", .str i.payment_object.wire),
        ("Tax", .str i.tax.wire),
        ("Ean13", .str i.ean_13),
        ("AgentData", encodeAgentData i.agent_data),
        ("SupplierInfo", encodeSupplierInfo i.supplier_info)]

/-- Serialization of a MarkCode; no rename attribute, snake_case keys. -/
def encodeMarkCode (m : MarkCode) : Json :=
  .obj [("mark_code_type", .str m.mark_code_type.wire),
        ("value", .str m.value)]

/-- Serialization of a MarkQuantity under its PascalCase renames. -/
def encodeMarkQuantity (m : MarkQuantity) : Json :=
  .obj [("Numerator", .num m.numerator),
        ("Denominator", .num m.denominator)]

/-- Serialization of ClientInfo; no rename attribute, snake_case keys. -/
def encodeClientInfo (c : ClientInfo) : Json :=
  .obj [("birthdate", .str c.birthdate),
        ("citizenship", .str c.citizenship),
        ("document_code", .str c.document_code.wire),
        ("document_data", .str c.document_data),
        ("address", .str c.address)]

/-- Serialization of an ItemFFD12 under its PascalCase renames; the unit
struct SectoralItemProps field serializes as null. -/
def encodeItemFFD12 (i : ItemFFD12) : Json :=
  .obj [("Name", .str i.name),
        ("Price", .num i.price.val),
        ("Quantity", .num i.quantity.val),
        ("Amount", .num i.amount.val),
        ("PaymentMethod", .str i.payment_method.wire),
        ("PaymentObject", .str i.payment_object.wire),
        ("Tax", .str i.tax.wire),
        ("AgentData", encodeAgentData i.agent_data),
        ("SupplierInfo", encodeSupplierInfo i.supplier_info),
        ("UserData", .str i.user_data),
        ("Excise", .str i.excise),
        ("CountryCode", .str i.country_code),
        ("DeclarationNumber", .str i.declaration_number),
        ("MeasurementUnit", .str i.measurement_unit.wire),
        ("MarkProcessingMode", .str i.mark_processing_mode),
        ("MarkCode", .arr (i.mark_code.map encodeMarkCode)),
        ("MarkQuantity", encodeMarkQuantity i.mark_quantity),
        ("SectoralItemProps", .null)]

/-- Serialization of Payments under its PascalCase renames. -/
def encodePayments (p : Payments) : Json :=
  .obj [("Electronic", .num p.electronic.val),
        ("Cash", encodeOptAmount p.cash),
        ("AdvancePayment", encodeOptAmount p.advance_payment),
        ("Credit", encodeOptAmount p.credit),
        ("Provision", encodeOptAmount p.provision)]

/-- Serialization of a Receipt: serde uses external tagging for the enum, so
the document is an object with the single variant-name key (FFD105 or FFD12,
unchanged by the PascalCase variant rename) whose value holds the variant
fields under their snake_case names (the enum-level rename does not touch
field names). -/
def encodeReceipt : Receipt → Json
| .fFD105 items v email phone taxation payments =>
  .obj [("FFD105", .obj
    [("items", .arr (items.map encodeItemFFD105)),
     ("ffd_version", .str v.wire),
     ("email", .str email),
     ("phone", .str phone),
     ("taxation", .str taxation.wire),
     ("payments", encodePayments payments)])]
| .fFD12 items v client_info taxation email phone customer customer_inn
    payments _ _ _ _ =>
  .obj [("FFD12", .obj
    [("items", .arr (items.map encodeItemFFD12)),
     ("ffd_vesrion", .str v.wire),
     ("client_info", encodeClientInfo client_info),
     ("taxation", .str taxation.wire),
     ("email", .str email),
     ("phone", .str phone),
     ("customer", .str customer),
     ("customer_inn", .str customer_inn),
     ("payments", encodePayments payments),
     ("operating_check_props", .null),
     ("sectoral_check_props", .null),
     ("add_user_prop", .null),
     ("additional_check_props", .null)])]

/-- Embedding of `OrderId(String)` from src/payment.rs: a plain newtype
whose only constructor wraps the raw string; the 36-character requirement in
its documentation is checked nowhere. -/
structure OrderId where
  val : String
deriving DecidableEq

/-- Embedding of `Token(String)` from src/payment.rs. -/
structure Token where
  val : String
deriving DecidableEq

/-- Embedding of `Description(String)` from src/payment.rs (documented limit
140 characters, unchecked). -/
structure Description where
  val : String
deriving DecidableEq

/-- Embedding of `CustomerKey(String)` from src/payment.rs (documented limit
36 characters, unchecked). -/
structure CustomerKey where
  val : String
deriving DecidableEq

/-- Embedding of `Recurrent(String)` from src/payment.rs. -/
structure Recurrent where
  val : String
deriving DecidableEq

/-- Embedding of `PayType` from src/payment.rs. -/
inductive PayType where
| o | t
deriving DecidableEq

/-- Wire token of a PayType value (variant names verbatim). -/
def PayType.wire : PayType → String
| .o => "O"
| .t => "T"

/-- Embedding of `Language` from src/payment.rs; no rename attribute, so the
wire tokens are the variant names Ru and En. -/
inductive Language where
| ru | en
deriving DecidableEq

/-- Wire token of a Language value. -/
def Language.wire : Language → String
| .ru => "Ru"
| .en => "En"

/-- Embedding of `Data` from src/payment.rs; no rename attribute, snake_case
keys; Device, DeviceOs, DeviceWebView, DeviceBrowser and TinkoffPayWeb are
newtype wrappers inlined as their payloads, and OperationInitiatorType is a
fieldless struct serialized as null. -/
structure Data where
  additional_properties : String
  device : String
  device_os : String
  device_web_view : Bool
  device_browser : String
  tinkoff_pay_web : Bool

/-- Embedding of `Shop` from src/payment.rs; no rename attribute, snake_case
keys; ShopCode, ShopAmount, ShopName and Fee are transparent wrappers. -/
structure Shop where
  shop_code : String
  amount : Amount
  name : String
  fee : String

/-- Embedding of `InitPaymentReq` from src/payment.rs.  URLs and the chrono
timestamp are modelled by their string renderings. -/
structure InitPaymentReq where
  terminal_key : TerminalKey
  amount : Amount
  order_id : OrderId
  token : Token
  description : Option Description
  customer_key : Option CustomerKey
  recurrent : Option Recurrent
  pay_type : Option PayType
  language : Option Language
  notification_url : Option String
  success_url : Option String
  fail_url : Option String
  redirect_due_date : Option String
  data : Option Data
  receipt : Option Receipt
  shops : List Shop

/-- Serialization of an optional value: serde writes None as null. -/
def encodeOpt (f : α → Json) : Option α → Json
| Option.none => .null
| some a => f a

/-- Serialization of Data (snake_case keys, unit initiator field null). -/
def encodeData (d : Data) : Json :=
  .obj [("additional_properties", .str d.additional_properties),
        ("operation_initiator_type", .null),
        ("device", .str d.device),
        ("device_os", .str d.device_os),
        ("device_web_view", .bool d.device_web_view),
        ("device_browser", .str d.device_browser),
        ("tinkoff_pay_web", .bool d.tinkoff_pay_web)]

/-- Serialization of a Shop (snake_case keys). -/
def encodeShop (s : Shop) : Json :=
  .obj [("shop_code", .str s.shop_code),
        ("amount", .num s.amount.val),
        ("name", .str s.name),
        ("fee", .str s.fee)]

/-- Serialization of an InitPaymentReq: rename_all PascalCase on the struct
gives leading-capital concatenated keys derived from the snake_case field
names, and the data field carries an explicit rename to DATA. -/
def encodeInitPaymentReq (r : InitPaymentReq) : Json :=
  .obj [("TerminalKey", .str r.terminal_key.val),
        ("Amount", .num r.amount.val),
        ("OrderId", .str r.order_id.val),
        ("Token", .str r.token.val),
        ("Description", encodeOpt (fun d => .str d.val) r.description),
        ("CustomerKey", encodeOpt (fun c => .str c.val) r.customer_key),
        ("Recurrent", encodeOpt (fun c => .str c.val) r.recurrent),
        ("PayType", encodeOpt (fun p => .str p.wire) r.pay_type),
        ("Language", encodeOpt (fun l => .str l.wire) r.language),
        ("NotificationUrl", encodeOpt Json.str r.notification_url),
        ("SuccessUrl", encodeOpt Json.str r.success_url),
        ("FailUrl", encodeOpt Json.str r.fail_url),
        ("RedirectDueDate", encodeOpt Json.str r.redirect_due_date),
        ("DATA", encodeOpt encodeData r.data),
        ("Receipt", encodeOpt encodeReceipt r.receipt),
        ("Shops", .arr (r.shops.map encodeShop))]

/-- Embedding of `Status(String)` from src/payment.rs. -/
structure Status where
  val : String
deriving DecidableEq

/-- Embedding of `PaymentId(String)` from src/payment.rs. -/
structure PaymentId where
  val : String
deriving DecidableEq

/-- Embedding of `InitPaymentRes` from src/payment.rs: every field except
payment_url is mandatory for the derived deserializer; payment_url has the
Option type, whose absence deserializes to none.  The url::Url payload is
modelled as its string rendering. -/
structure InitPaymentRes where
  terminal_key : TerminalKey
  amount : Amount
  order_id : OrderId
  success : Bool
  status : Status
  payment_id : PaymentId
  error_code : String
  payment_url : Option String
  message : String
  details : String

/-- Lookup of a field of a JSON object during struct deserialization;
mandatory-field semantics: absence is the serde missing-field error, whose
path is the top-level one. -/
def getField (fields : List (String × Json)) (key : String) :
    Except DeserError Json :=
  match (fields.find? (fun p => p.1 == key)).map (fun p => p.2) with
  | some v => .ok v
  | Option.none => .error ⟨".", "missing field " ++ key⟩

/-- Decoding of a JSON string at the named field. -/
def asStr (key : String) : Json → Except DeserError String
| .str s => .ok s
| _ => .error ⟨key, "invalid type, expected a string"⟩

/-- Decoding of a JSON boolean at the named field. -/
def asBool (key : String) : Json → Except DeserError Bool
| .bool b => .ok b
| _ => .error ⟨key, "invalid type, expected a boolean"⟩

/-- Decoding of a NonZeroU32 amount at the named field: the number must be
an integer strictly between 0 and 2^32. -/
def asNonZeroU32 (key : String) : Json → Except DeserError Amount
| .num n =>
    if h : 0 < n ∧ n < 4294967296 then
      .ok ⟨n.toNat, by omega, by omega⟩
    else .error ⟨key, "invalid value, expected a nonzero u32"⟩
| _ => .error ⟨key, "invalid type, expected an integer"⟩

/-- Decoding of the optional url::Url field at the named field: an absent or
null entry gives none, a string gives the URL (syntactic URL validation by
the url crate is abstracted; every input considered here is a well-formed
https URL). -/
def asOptUrl (key : String) : Option Json → Except DeserError (Option String)
| Option.none => .ok Option.none
| some .null => .ok Option.none
| some (.str s) => .ok (some s)
| some _ => .error ⟨key, "invalid type, expected a string"⟩

/-- Embedding of the serde-derived deserializer of `InitPaymentRes` under
rename_all PascalCase: each mandatory field is looked up under its derived
PascalCase key (in particular payment_url under PaymentUrl, the PascalCase
image of that field name), unknown keys are ignored, and missing mandatory
fields are reported in declaration order. -/
def deserInitPaymentRes (j : Json) : Except DeserError InitPaymentRes :=
  match j with
  | .obj fields => do
      let tk ← getField fields "TerminalKey" >>= asStr "TerminalKey"
      let amt ← getField fields "Amount" >>= asNonZeroU32 "Amount"
      let oid ← getField fields "OrderId" >>= asStr "OrderId"
      let succ ← getField fields "Success" >>= asBool "Success"
      let st ← getField fields "Status" >>= asStr "Status"
      let pid ← getField fields "PaymentId" >>= asStr "PaymentId"
      let ec ← getField fields "ErrorCode" >>= asStr "ErrorCode"
      let purl ← asOptUrl "PaymentUrl"
        ((fields.find? (fun p => p.1 == "PaymentUrl")).map (fun p => p.2))
      let msg ← getField fields "Message" >>= asStr "Message"
      let det ← getField fields "Details" >>= asStr "Details"
      pure ⟨⟨tk⟩, amt, ⟨oid⟩, succ, ⟨st⟩, ⟨pid⟩, ec, purl, msg, det⟩
  | _ => .error ⟨".", "invalid type, expected a map"⟩

/-- Modelled from the spec: the total of the item amounts of a receipt,
sum over items of the Amount field (spec section 8, receipt invariant). -/
def spec_receipt_items_total : Receipt → Nat
| .fFD105 items _ _ _ _ _ => (items.map (fun i => i.amount.val)).sum
| .fFD12 items _ _ _ _ _ _ _ _ _ _ _ _ => (items.map (fun i => i.amount.val)).sum

/-- Modelled from the spec: the payments total of a Payments breakdown, the
sum of the electronic, cash, advance, credit and provision components (spec
section 3). -/
def spec_payments_total (p : Payments) : Nat :=
  p.electronic.val + (p.cash.map (fun a => a.val)).getD 0 +
    (p.advance_payment.map (fun a => a.val)).getD 0 +
    (p.credit.map (fun a => a.val)).getD 0 +
    (p.provision.map (fun a => a.val)).getD 0

/-- Modelled from the spec: the payments total of a receipt. -/
def spec_receipt_payments_total : Receipt → Nat
| .fFD105 _ _ _ _ _ p => spec_payments_total p
| .fFD12 _ _ _ _ _ _ _ _ p _ _ _ _ => spec_payments_total p

/-- Modelled from the spec: the electronic component of a receipt. -/
def spec_receipt_electronic : Receipt → Nat
| .fFD105 _ _ _ _ _ p => p.electronic.val
| .fFD12 _ _ _ _ _ _ _ _ p _ _ _ _ => p.electronic.val

/-- Embedding of the response-handling tail of `Client::send`
(src/client.rs lines 153-204).  After the body text is captured, the source
matches the status code: 401, 403, 404 and 429 map to dedicated variants,
`is_server_error` (500..=599) maps to `Server` carrying the body, any other
status failing `is_success` (200..=299) maps to `Api` carrying the body, and
only then is the body deserialized, a failure producing `Deserialize` with
the path, the message and the raw body.  The deserializer for the target
type is passed as a function, as `send` is generic over `T`. -/
def send {T : Type} (status : Nat) (body : Json)
    (deser : Json → Except DeserError T) : Except Error T :=
  if status = 401 then .error .unauthorized
  else if status = 403 then .error .forbidden
  else if status = 404 then .error .notFound
  else if status = 429 then .error .tooManyRequests
  else if 500 ≤ status ∧ status ≤ 599 then .error (.server body)
  else if ¬ (200 ≤ status ∧ status ≤ 299) then .error (.api body)
  else
    match deser body with
    | .ok r => .ok r
    | .error e => .error (.deserialize e.message e.path body)

/-- Modelled from the spec: the status-to-error mapping table of spec section
8 — 401 to Unauthorized, 403 to Forbidden, 404 to NotFound, 429 to the
rate-limited error, any 5xx to the server error with the verbatim body, any
other non-2xx to the API error with the verbatim body, and a 2xx whose body
fails to parse to a Deserialize error with path, message and raw body.  The
third argument is the outcome of parsing the body, consulted only in the 2xx
case. -/
def spec_status_mapping {T : Type} (status : Nat) (body : Json)
    (outcome : Except DeserError T) : Except Error T :=
  if status = 401 then .error .unauthorized
  else if status = 403 then .error .forbidden
  else if status = 404 then .error .notFound
  else if status = 429 then .error .tooManyRequests
  else if 500 ≤ status ∧ status < 600 then .error (.server body)
  else if ¬ (200 ≤ status ∧ status < 300) then .error (.api body)
  else
    match outcome with
    | .ok r => .ok r
    | .error e => .error (.deserialize e.message e.path body)

/-- Index into a JSON array. -/
def jsonIndex (j : Json) (i : Nat) : Option Json :=
  match j with
  | .arr es => es[i]?
  | _ => Option.none

/-- The complete list of object keys an encoded ItemFFD105 can emit. -/
def item_keys_ffd105 : List String :=
  ["Name", "Price", "Quantity", "Amount", "PaymentMethod", "PaymentObject",
   "Tax", "Ean13", "AgentData", "AgentSign", "OperationName", "Phones",
   "ReceiverPhones", "TransferPhones", "OperatorName", "OperatorAddress",
   "PeratorInn", "SupplierInfo", "Phones", "Name", "Inn"]

/-- A 37-character order identifier, one character over the documented
36-character ceiling. -/
def c1_long_order_id : String := "0123456789012345678901234567890123456"

/-- A parsable 2xx response body whose Success field is false: HTTP 200 with
a business rejection, all mandatory fields of InitPaymentRes present. -/
def c3_body : Json :=
  .obj [("TerminalKey", .str "TBankTest"),
        ("Amount", .num 140000),
        ("OrderId", .str "21090"),
        ("Success", .bool false),
        ("Status", .str "REJECTED"),
        ("PaymentId", .str "3093639567"),
        ("ErrorCode", .str "204"),
        ("Message", .str "rejected"),
        ("Details", .str "")]

/-- The decoded value of c3_body. -/
def c3_res : InitPaymentRes :=
  ⟨⟨"TBankTest"⟩, ⟨140000, by decide, by decide⟩, ⟨"21090"⟩, false,
   ⟨"REJECTED"⟩, ⟨"3093639567"⟩, "204", Option.none, "rejected", ""⟩

/-- Shared concrete agent data for sample receipts. -/
def sample_agent_data : AgentData :=
  ⟨.another, "op", [], [], [], "opname", "addr", "123456789012"⟩

/-- Shared concrete supplier info for sample receipts. -/
def sample_supplier_info : SupplierInfo := ⟨[], "supplier", "1234567890"⟩

/-- A receipt item of 100000 kopecks. -/
def c4_item : ItemFFD105 :=
  ⟨"Товар", ⟨100000, by decide, by decide⟩, ⟨1, by decide, by decide⟩,
   ⟨100000, by decide, by decide⟩, .fullPayment, .commodity, .vat10, "",
   sample_agent_data, sample_supplier_info⟩

/-- A payments breakdown whose electronic component is 999 kopecks. -/
def c4_payments : Payments :=
  ⟨⟨999, by decide, by decide⟩, Option.none, Option.none, Option.none,
   Option.none⟩

/-- A 1.05 receipt whose single item totals 100000 kopecks against a
payments total of 999 kopecks. -/
def c4_receipt : Receipt :=
  .fFD105 [c4_item] .v105 "a@test.ru" "+79031234567" .osn c4_payments

/-- A payment request for 140000 kopecks carrying c4_receipt, violating both
receipt equalities the spec states. -/
def c4_req : InitPaymentReq :=
  ⟨⟨"TBankTest"⟩, ⟨140000, by decide, by decide⟩, ⟨"21090"⟩, ⟨"tok"⟩,
   Option.none, Option.none, Option.none, Option.none, Option.none,
   Option.none, Option.none, Option.none, Option.none, Option.none,
   some c4_receipt, []⟩

/-- The exact response body of claim C5: Success true, ErrorCode 0, Status
NEW, PaymentId and PaymentURL present, nothing else. -/
def c5_body : Json :=
  .obj [("Success", .bool true),
        ("ErrorCode", .str "0"),
        ("Status", .str "NEW"),
        ("PaymentId", .str "3093639567"),
        ("PaymentURL", .str "https://pay.example/xyz")]

/-- A response body with every mandatory field of InitPaymentRes present and
the redirect URL under the documented key PaymentURL. -/
def c6_body : Json :=
  .obj [("TerminalKey", .str "TBankTest"),
        ("Amount", .num 140000),
        ("OrderId", .str "21090"),
        ("Success", .bool true),
        ("Status", .str "NEW"),
        ("PaymentId", .str "3093639567"),
        ("ErrorCode", .str "0"),
        ("Message", .str "OK"),
        ("Details", .str ""),
        ("PaymentURL", .str "https://pay.tbank.ru/new/fU1ppgqa")]

/-- A concrete payments breakdown for the C7 witness. -/
def c7_payments : Payments :=
  ⟨⟨140000, by decide, by decide⟩, Option.none, Option.none, Option.none,
   Option.none⟩

/-- A marked-goods fraction with numerator 3 over denominator 2. -/
def c8_mark_quantity : MarkQuantity := ⟨3, 2⟩

/-- A 1.2 receipt item carrying c8_mark_quantity. -/
def c8_item : ItemFFD12 :=
  ⟨"Товар", ⟨10000, by decide, by decide⟩, ⟨1, by decide, by decide⟩,
   ⟨10000, by decide, by decide⟩, .fullPayment, .goodsWithMarkingCode,
   .vat20, sample_agent_data, sample_supplier_info, "", "", "643", "",
   .piece, "0", [⟨.gs1m, "code"⟩], c8_mark_quantity, ⟨⟩⟩

/-- Concrete client info for the C8 receipt. -/
def c8_client_info : ClientInfo :=
  ⟨"01.01.1990", "643", .c21, "1234 567890", "Москва"⟩

/-- A payments breakdown matching the C8 item amount. -/
def c8_payments : Payments :=
  ⟨⟨10000, by decide, by decide⟩, Option.none, Option.none, Option.none,
   Option.none⟩

/-- A full 1.2 receipt whose item carries the improper fraction 3/2. -/
def c8_receipt : Receipt :=
  .fFD12 [c8_item] .v12 c8_client_info .osn "a@test.ru" "+79031234567"
    "a@test.ru" "7710140679" c8_payments ⟨⟩ ⟨⟩ ⟨⟩ ⟨⟩

/-- Claim C2: for every HTTP response received by send, the
status-to-error mapping is exhaustive and exactly the one the spec tabulates
(401 Unauthorized, 403 Forbidden, 404 NotFound, 429 rate-limited, 5xx server
error with verbatim body, other non-2xx API error with verbatim body, 2xx
with unparsable body Deserialize with path, message and raw body), and on
every non-2xx status the result is independent of the deserializer, i.e.
classification happens before any JSON parsing. -/
theorem send_matches_spec_status_mapping (T : Type) (status : Nat) (body : Json)
    (deser d2 : Json → Except DeserError T) :
    send status body deser = spec_status_mapping status body (deser body) ∧
    (¬ (200 ≤ status ∧ status ≤ 299) →
      send status body deser = send status body d2) := by
  constructor
  · unfold send spec_status_mapping
    split_ifs <;> first | rfl | omega
  · intro h
    unfold send
    split_ifs <;> rfl

/-- Witness for send_matches_spec_status_mapping at status 418 with a
concrete body and two deserializers that disagree. -/
theorem send_matches_spec_status_mapping_witness :
    send 418 Json.null (fun _ => Except.ok (1 : Nat)) =
      spec_status_mapping 418 Json.null (Except.ok (1 : Nat)) ∧
    send 418 Json.null (fun _ => Except.ok (1 : Nat)) =
      send 418 Json.null (fun _ => Except.ok (2 : Nat)) := by
  have h := send_matches_spec_status_mapping Nat 418 Json.null
    (fun _ => Except.ok 1) (fun _ => Except.ok 2)
  exact ⟨h.1, h.2 (by decide)⟩

/-- Claim C9: Environment conversion from a string sends the exact token
"PRODUCTION" to Production and everything else — including "TEST", "Test"
(the fallback string used by `Client::new` when the variable is unset) and
lowercase spellings — to Test; only Production selects the production base
URL; and yet the default Environment is Production. -/
theorem environment_from_str_and_default (s : String) :
    (Environment.from_str s = .production ↔ s = "PRODUCTION") ∧
    Environment.from_str "Test" = .test ∧
    Environment.from_str "test" = .test ∧
    Environment.default_env = .production ∧
    Environment.base_url .production = PRODUCTION_BASE ∧
    Environment.base_url .test = TEST_BASE := by
  refine ⟨?_, rfl, rfl, rfl, rfl, rfl⟩
  constructor
  · intro h
    by_contra hne
    unfold Environment.from_str at h
    rw [if_neg hne] at h
    split_ifs at h
  · intro h
    subst h
    rfl

/-- Witness for environment_from_str_and_default at the production token. -/
theorem environment_from_str_and_default_witness :
    Environment.from_str "PRODUCTION" = .production :=
  ((environment_from_str_and_default "PRODUCTION").1).mpr rfl

/-- Claim C10 as amended: TerminalKey.from_env returns the Config error
whose message is "TERMINAL_KEY variable is missing" both when the variable
is unset and when its value exceeds 20 UTF-8 bytes, and succeeds with the
wrapped value exactly when the value is at most 20 UTF-8 bytes (the Rust
length check counts bytes, not characters). -/
theorem terminal_key_from_env_spec (s : String) :
    TerminalKey.from_env none =
      .error (.config "TERMINAL_KEY variable is missing") ∧
    TerminalKey.from_env (some s) =
      (if s.utf8ByteSize ≤ 20 then .ok ⟨s⟩
       else .error (.config "TERMINAL_KEY variable is missing")) := by
  refine ⟨rfl, ?_⟩
  unfold TerminalKey.from_env Option.filter
  by_cases h : s.utf8ByteSize ≤ 20
  · simp [h]
  · simp [h]

/-- Counterexample to claim C10 as stated: a value of 11 Cyrillic characters
is at most 20 characters long, yet from_env rejects it (22 UTF-8 bytes) with
the missing-variable Config message, so success is not determined by the
character count the claim states. -/
theorem terminal_key_from_env_char_count_counterexample :
    ("ааааааааааа" : String).length = 11 ∧
    TerminalKey.from_env (some "ааааааааааа") =
      .error (.config "TERMINAL_KEY variable is missing") := by
  constructor
  · rfl
  · rfl

/-- Claim C1 as amended: the value types perform no construction-time
validation at all — OrderId, Description, CustomerKey and TerminalKey wrap
any raw string unchanged (so nothing is ever clamped or truncated), numeric
range violations surface as serde deserialization errors rather than a
named Validation error (the SDK Error type has no Validation variant), and
the sole constructor-side check, TerminalKey::from_env, rejects an overlong
value with a Config error whose message does not name the violated rule. -/
theorem value_types_unvalidated_pass_through (s : String) :
    (OrderId.mk s).val = s ∧
    (Description.mk s).val = s ∧
    (CustomerKey.mk s).val = s ∧
    (TerminalKey.mk s).val = s ∧
    asNonZeroU32 "Amount" (Json.num 0) =
      .error ⟨"Amount", "invalid value, expected a nonzero u32"⟩ ∧
    (20 < s.utf8ByteSize →
      TerminalKey.from_env (some s) =
        .error (.config "TERMINAL_KEY variable is missing")) := by
  refine ⟨rfl, rfl, rfl, rfl, rfl, ?_⟩
  intro h
  have hn : ¬ s.utf8ByteSize ≤ 20 := by omega
  unfold TerminalKey.from_env Option.filter
  simp [hn]

/-- Witness for value_types_unvalidated_pass_through at a 21-character
ASCII terminal key. -/
theorem value_types_unvalidated_pass_through_witness :
    TerminalKey.from_env (some "012345678901234567890") =
      .error (.config "TERMINAL_KEY variable is missing") :=
  (value_types_unvalidated_pass_through
    "012345678901234567890").2.2.2.2.2 (by decide)

/-- Counterexample to claim C1 as stated: a 37-character order identifier
exceeds the documented 36-character bound, yet construction succeeds and
returns the raw string unchanged instead of failing with a Validation
error. -/
theorem order_id_overlong_construction_succeeds :
    (OrderId.mk c1_long_order_id).val = c1_long_order_id ∧
    c1_long_order_id.length = 37 :=
  ⟨rfl, rfl⟩

/-- Claim C3 as amended: a 2xx response whose body deserializes is returned
by send as an ordinary Ok value, whatever its Success field holds; send
performs no business-rejection mapping, so a Success false outcome reaches
the caller inside the success value, not as an Api error. -/
theorem send_2xx_parsed_body_passes_through (status : Nat) (j : Json)
    (r : InitPaymentRes) (h1 : 200 ≤ status) (h2 : status ≤ 299)
    (h3 : deserInitPaymentRes j = .ok r) :
    send status j deserInitPaymentRes = .ok r := by
  unfold send
  split_ifs <;> try omega
  rw [h3]

/-- Witness for send_2xx_parsed_body_passes_through at HTTP 200 with the
Success false body c3_body. -/
theorem send_2xx_parsed_body_passes_through_witness :
    send 200 c3_body deserInitPaymentRes = .ok c3_res :=
  send_2xx_parsed_body_passes_through 200 c3_body c3_res
    (by decide) (by decide) rfl

/-- Counterexample to claim C3 as stated: the concrete HTTP 200 business
rejection c3_body (Success false, ErrorCode 204) is returned by send as an
ordinary success value whose success field is false — not as the ApiError
case the claim requires. -/
theorem send_success_false_returned_as_ok :
    Except.map (fun r => r.success)
      (send 200 c3_body deserInitPaymentRes) = .ok false := rfl

/-- Claim C4 as amended: the crate has no sealing or finalize step for
receipts, and neither receipt equality of the spec is enforced anywhere — a
request whose attached receipt violates the item-sum equality or whose
electronic component differs from the top-level amount is serialized to the
wire with both the receipt and the amount passed through verbatim, and the
SDK Error type has no Validation variant to report such a violation. -/
theorem violating_receipt_serialized_verbatim (req : InitPaymentReq)
    (r : Receipt) (hrec : req.receipt = some r)
    (hviol : spec_receipt_items_total r ≠ spec_receipt_payments_total r ∨
      spec_receipt_electronic r ≠ req.amount.val) :
    jsonLookup (encodeInitPaymentReq req) "Receipt" =
      some (encodeReceipt r) ∧
    jsonLookup (encodeInitPaymentReq req) "Amount" =
      some (.num req.amount.val) := by
  constructor
  · have h : jsonLookup (encodeInitPaymentReq req) "Receipt" =
        some (encodeOpt encodeReceipt req.receipt) := rfl
    rw [h, hrec]
    rfl
  · rfl

/-- Witness for violating_receipt_serialized_verbatim at the concrete
doubly-violating request c4_req. -/
theorem violating_receipt_serialized_verbatim_witness :
    jsonLookup (encodeInitPaymentReq c4_req) "Receipt" =
      some (encodeReceipt c4_receipt) ∧
    jsonLookup (encodeInitPaymentReq c4_req) "Amount" =
      some (.num c4_req.amount.val) :=
  violating_receipt_serialized_verbatim c4_req c4_receipt rfl
    (Or.inl (by decide))

/-- Counterexample to claim C4 as stated: c4_receipt breaks both equalities
(items total 100000 against payments total 999, electronic 999 against
request amount 140000), yet the receipt value exists and the request
carrying it serializes, receipt and amount emitted verbatim — no sealing
step fails and no Validation error is produced. -/
theorem receipt_sum_mismatch_still_serialized :
    spec_receipt_items_total c4_receipt ≠
      spec_receipt_payments_total c4_receipt ∧
    spec_receipt_electronic c4_receipt ≠ c4_req.amount.val ∧
    jsonLookup (encodeInitPaymentReq c4_req) "Receipt" =
      some (encodeReceipt c4_receipt) ∧
    jsonLookup (encodeInitPaymentReq c4_req) "Amount" =
      some (.num 140000) :=
  ⟨by decide, by decide, rfl, rfl⟩

/-- Claim C5: evaluation of send at the exact body the claim promises will
decode: the derived deserializer requires TerminalKey, Amount, OrderId,
Message and Details as mandatory fields, so this body produces a
Deserialize error (missing field TerminalKey) instead of the claimed
success value with payment_url populated. -/
theorem claimed_success_body_fails_deserialization :
    send 200 c5_body deserInitPaymentRes =
      .error (.deserialize "missing field TerminalKey" "." c5_body) := rfl

/-- Claim C6: evaluation of the derived InitPaymentRes deserializer at a
body that carries every mandatory field plus the redirect URL under the
documented key PaymentURL: the PascalCase rename derives the key
PaymentUrl, so the documented key is ignored as unknown and payment_url
comes back empty, while the keys the rename gets right (TerminalKey,
OrderId) decode as documented. -/
theorem payment_url_documented_key_is_ignored :
    Except.map (fun r => r.payment_url)
      (deserInitPaymentRes c6_body) = .ok Option.none ∧
    Except.map (fun r => r.terminal_key.val)
      (deserInitPaymentRes c6_body) = .ok "TBankTest" ∧
    Except.map (fun r => r.order_id.val)
      (deserInitPaymentRes c6_body) = .ok "21090" :=
  ⟨rfl, rfl, rfl⟩

/-- Auxiliary: an array of plain strings contributes no object keys. -/
theorem jsonKeysList_map_str (l : List String) :
    jsonKeysList (l.map Json.str) = [] := by
  induction l with
  | nil => rfl
  | cons a l ih => simp [jsonKeysList, jsonKeys, ih]

/-- Auxiliary: the keys of an encoded AgentData are a fixed list. -/
theorem jsonKeys_encodeAgentData (a : AgentData) :
    jsonKeys (encodeAgentData a) =
      ["AgentSign", "OperationName", "Phones", "ReceiverPhones",
       "TransferPhones", "OperatorName", "OperatorAddress", "PeratorInn"] := by
  simp [encodeAgentData, jsonKeys, jsonKeysFields, jsonKeysList_map_str]

/-- Auxiliary: the keys of an encoded SupplierInfo are a fixed list. -/
theorem jsonKeys_encodeSupplierInfo (s : SupplierInfo) :
    jsonKeys (encodeSupplierInfo s) = ["Phones", "Name", "Inn"] := by
  simp [encodeSupplierInfo, jsonKeys, jsonKeysFields, jsonKeysList_map_str]

/-- Auxiliary: the keys of an encoded ItemFFD105 are a fixed list,
independent of the item values. -/
theorem jsonKeys_encodeItemFFD105 (i : ItemFFD105) :
    jsonKeys (encodeItemFFD105 i) = item_keys_ffd105 := by
  simp [encodeItemFFD105, encodeAgentData, encodeSupplierInfo, jsonKeys,
    jsonKeysFields, jsonKeysList_map_str, item_keys_ffd105]

/-- Auxiliary: the keys of an encoded 1.05 receipt are the variant tag, the
six field names, the payment component names, and the keys contributed by
the encoded items. -/
theorem jsonKeys_encodeReceipt_ffd105 (items : List ItemFFD105)
    (v : FfdVersion) (email phone : String) (tx : Taxation) (p : Payments) :
    jsonKeys (encodeReceipt (.fFD105 items v email phone tx p)) =
      "FFD105" :: "items" :: (jsonKeysList (items.map encodeItemFFD105) ++
        ["ffd_version", "email", "phone", "taxation", "payments",
         "Electronic", "Cash", "AdvancePayment", "Credit", "Provision"]) := by
  obtain ⟨e, c, a, cr, pr⟩ := p
  cases c <;> cases a <;> cases cr <;> cases pr <;>
    simp [encodeReceipt, encodePayments, encodeOptAmount, jsonKeys,
      jsonKeysFields]

/-- Auxiliary: every key emitted by an encoded list of 1.05 items belongs to
the fixed item key list. -/
theorem mem_jsonKeysList_items105 (items : List ItemFFD105) (k : String) :
    k ∈ jsonKeysList (items.map encodeItemFFD105) → k ∈ item_keys_ffd105 := by
  induction items with
  | nil =>
    intro h
    simp [jsonKeysList] at h
  | cons i rest ih =>
    intro h
    simp only [List.map_cons, jsonKeysList] at h
    rcases List.mem_append.mp h with h1 | h1
    · rw [jsonKeys_encodeItemFFD105] at h1
      exact h1
    · exact ih h1

/-- Claim C7: the receipt model is a tagged union keyed by
fiscal-document-format version, and the 1.05 variant (including its item
type) carries no marking-code, mark-quantity or client-info field: no
serialized 1.05 receipt, whatever its contents, ever contains such a key,
in either spelling, anywhere in the document. -/
theorem receipt_ffd105_excludes_marking_and_client_fields
    (items : List ItemFFD105) (v : FfdVersion) (email phone : String)
    (tx : Taxation) (p : Payments) (k : String)
    (hk : k ∈ (["MarkCode", "MarkQuantity", "ClientInfo", "mark_code",
      "mark_quantity", "client_info"] : List String)) :
    k ∉ jsonKeys (encodeReceipt (.fFD105 items v email phone tx p)) := by
  intro hmem
  simp only [List.mem_cons, List.not_mem_nil, or_false] at hk
  rcases hk with rfl | rfl | rfl | rfl | rfl | rfl <;>
  · rw [jsonKeys_encodeReceipt_ffd105] at hmem
    simp at hmem
    exact absurd (mem_jsonKeysList_items105 items _ hmem) (by decide)

/-- Witness for receipt_ffd105_excludes_marking_and_client_fields at a
concrete nonempty 1.05 receipt and the MarkCode key. -/
theorem receipt_ffd105_excludes_marking_and_client_fields_witness :
    "MarkCode" ∉ jsonKeys (encodeReceipt
      (.fFD105 [c4_item] .v105 "a@test.ru" "+79031234567" .osn
        c7_payments)) :=
  receipt_ffd105_excludes_marking_and_client_fields [c4_item] .v105
    "a@test.ru" "+79031234567" .osn c7_payments "MarkCode" (by decide)

/-- Claim C8 as amended: the crate has no sealing step and never compares
the numerator with the denominator — an item whose MarkQuantity is an
improper fraction is serialized with both numbers emitted verbatim, and the
SDK Error type has no Validation variant to report the violation. -/
theorem mark_quantity_serialized_without_fraction_check (i : ItemFFD12)
    (h : i.mark_quantity.denominator ≤ i.mark_quantity.numerator) :
    jsonLookup (encodeItemFFD12 i) "MarkQuantity" =
      some (.obj [("Numerator", .num i.mark_quantity.numerator),
                  ("Denominator", .num i.mark_quantity.denominator)]) := rfl

/-- Witness for mark_quantity_serialized_without_fraction_check at the
improper fraction 3 over 2. -/
theorem mark_quantity_serialized_without_fraction_check_witness :
    jsonLookup (encodeItemFFD12 c8_item) "MarkQuantity" =
      some (.obj [("Numerator", Json.num 3), ("Denominator", Json.num 2)]) :=
  mark_quantity_serialized_without_fraction_check c8_item (by decide)

/-- Counterexample to claim C8 as stated: the full 1.2 receipt c8_receipt
whose item carries numerator 3 over denominator 2 is serialized end to end —
digging through the serialized document reaches the improper fraction
verbatim, so no sealing failure and no Validation error occurs. -/
theorem mark_quantity_ge_denominator_still_serialized :
    (((jsonLookup (encodeReceipt c8_receipt) "FFD12").bind
        (fun inner => jsonLookup inner "items")).bind
          (fun items => jsonIndex items 0)).bind
            (fun item => jsonLookup item "MarkQuantity") =
      some (.obj [("Numerator", Json.num 3), ("Denominator", Json.num 2)]) ∧
    c8_mark_quantity.denominator ≤ c8_mark_quantity.numerator :=
  ⟨rfl, by decide⟩

end TBank
